import Mathlib

/-!
Verification of the block content model and route-aware persistence layer of
the engmanager.xyz website (Rust sources under src/website/src/).

The embedding is a shallow translation of:
  - the props schemas (features/button/schema.rs, features/header/schema.rs,
    features/hero/schema.rs),
  - the tagged Block union and the BlockWithId envelope (core/block.rs),
  - the HomepageData document and its default content (pages/homepage.rs),
  - the route index and the load/save functions (core/persistence.rs),
  - the id-assignment step of the admin update endpoint (pages/admin/api.rs).

JSON values are modelled as an inductive `Json` AST.  Serde's derived
Serialize/Deserialize behaviour (driven by the attributes written in the
source: adjacent tagging with tag "type" and content "props", flattening of
the inner block into BlockWithId, and the rename of block_ids to "blockIds")
is translated into explicit toJson/fromJson functions on that AST.  The
conversion between JSON text and the AST is the external serde_json facility
and is passed in as a parameter `jp : String → Option Json`; the filesystem
is modelled as a total map from paths to a file state (missing / io error /
readable text).
-/

namespace Website

/-- JSON value AST.  Object fields are an ordered association list, mirroring
the order in which serde serializes struct fields. -/
inductive Json where
  | null
  | bool (b : Bool)
  | num (n : Int)
  | str (s : String)
  | arr (elems : List Json)
  | obj (fields : List (String × Json))

/-- Look up the first field with the given key in an association list. -/
def getKey (key : String) : List (String × Json) → Option Json
  | [] => none
  | (k, v) :: rest => if k = key then some v else getKey key rest

/-- Field lookup on a JSON value: `none` unless the value is an object with
the field present. -/
def Json.getField (j : Json) (key : String) : Option Json :=
  match j with
  | .obj fields => getKey key fields
  | _ => none

/-- The keys of a JSON object, in serialization order. -/
def Json.objKeys : Json → List String
  | .obj fields => fields.map Prod.fst
  | _ => []

/-- Expect a JSON string. -/
def Json.asString : Json → Option String
  | .str s => some s
  | _ => none

/-- Translated from features/button/schema.rs: `pub struct ButtonProps`. -/
structure ButtonProps where
  href : String
  text : String
  aria_label : String
deriving DecidableEq

/-- Translated from features/header/schema.rs: `pub struct HeaderProps`. -/
structure HeaderProps where
  headline : String
  button : ButtonProps
deriving DecidableEq

/-- Translated from features/hero/schema.rs: `pub struct HeroProps`. -/
structure HeroProps where
  headline : String
  subheadline : String
deriving DecidableEq

/-- Translated from core/block.rs: `pub enum Block`, a closed tagged union
with serde attributes tag = "type", content = "props". -/
inductive Block where
  | Header (props : HeaderProps)
  | Hero (props : HeroProps)
deriving DecidableEq

/-- Translated from core/block.rs: `pub struct BlockWithId`, an id plus a
serde-flattened Block. -/
structure BlockWithId where
  id : String
  block : Block
deriving DecidableEq

/-- Translated from pages/homepage.rs: `pub struct HomepageData`, the
top-level persisted content document. -/
structure HomepageData where
  blocks : List BlockWithId
deriving DecidableEq

/-- Translated from core/persistence.rs: `pub struct Route`.  The
`block_ids` field carries `#[serde(rename = "blockIds")]`. -/
structure Route where
  path : String
  name : String
  block_ids : List String
deriving DecidableEq

/-- Serde-derived serialization of ButtonProps: a plain struct, fields in
declaration order, literal field names. -/
def ButtonProps.toJson (p : ButtonProps) : Json :=
  Json.obj [("href", Json.str p.href), ("text", Json.str p.text),
            ("aria_label", Json.str p.aria_label)]

/-- Serde-derived serialization of HeaderProps. -/
def HeaderProps.toJson (p : HeaderProps) : Json :=
  Json.obj [("headline", Json.str p.headline), ("button", p.button.toJson)]

/-- Serde-derived serialization of HeroProps. -/
def HeroProps.toJson (p : HeroProps) : Json :=
  Json.obj [("headline", Json.str p.headline), ("subheadline", Json.str p.subheadline)]

/-- The serde discriminant written under the "type" key: the variant name
exactly as declared in core/block.rs. -/
def Block.tag : Block → String
  | .Header _ => "Header"
  | .Hero _ => "Hero"

/-- The variant payload written under the "props" key. -/
def Block.propsJson : Block → Json
  | .Header p => p.toJson
  | .Hero p => p.toJson

/-- Serde-derived serialization of Block with adjacent tagging
(`#[serde(tag = "type", content = "props")]`). -/
def Block.toJson (b : Block) : Json :=
  Json.obj [("type", Json.str b.tag), ("props", b.propsJson)]

/-- Serde-derived serialization of BlockWithId: the `id` field followed by
the fields of the flattened block (`#[serde(flatten)]`), all in one object. -/
def BlockWithId.toJson (b : BlockWithId) : Json :=
  Json.obj [("id", Json.str b.id), ("type", Json.str b.block.tag),
            ("props", b.block.propsJson)]

/-- Serde-derived serialization of HomepageData. -/
def HomepageData.toJson (d : HomepageData) : Json :=
  Json.obj [("blocks", Json.arr (d.blocks.map BlockWithId.toJson))]

/-- Serde-derived serialization of Route: `block_ids` is renamed to the
literal key "blockIds"; `path` and `name` keep their names. -/
def Route.toJson (r : Route) : Json :=
  Json.obj [("path", Json.str r.path), ("name", Json.str r.name),
            ("blockIds", Json.arr (r.block_ids.map Json.str))]

/-- Serde-derived deserialization of ButtonProps: all three string fields
must be present. -/
def ButtonProps.fromJson (j : Json) : Option ButtonProps := do
  let href ← (← j.getField "href").asString
  let text ← (← j.getField "text").asString
  let aria ← (← j.getField "aria_label").asString
  pure ⟨href, text, aria⟩

/-- Serde-derived deserialization of HeaderProps. -/
def HeaderProps.fromJson (j : Json) : Option HeaderProps := do
  let headline ← (← j.getField "headline").asString
  let button ← ButtonProps.fromJson (← j.getField "button")
  pure ⟨headline, button⟩

/-- Serde-derived deserialization of HeroProps. -/
def HeroProps.fromJson (j : Json) : Option HeroProps := do
  let headline ← (← j.getField "headline").asString
  let sub ← (← j.getField "subheadline").asString
  pure ⟨headline, sub⟩

/-- Serde-derived deserialization of the adjacently tagged Block: dispatch
on the string under "type", decode the payload under "props". -/
def Block.fromJson (j : Json) : Option Block := do
  let tag ← (← j.getField "type").asString
  let props ← j.getField "props"
  match tag with
  | "Header" => do
      let p ← HeaderProps.fromJson props
      pure (Block.Header p)
  | "Hero" => do
      let p ← HeroProps.fromJson props
      pure (Block.Hero p)
  | _ => none

/-- Serde-derived deserialization of BlockWithId: read `id`, then decode the
flattened Block from the remaining fields of the same object (the Block
decoder only consults the "type" and "props" keys). -/
def BlockWithId.fromJson (j : Json) : Option BlockWithId := do
  let id ← (← j.getField "id").asString
  let b ← Block.fromJson j
  pure ⟨id, b⟩

/-- Decode a JSON array elementwise as BlockWithId values, failing if any
element fails (serde sequence semantics). -/
def decodeBlockList : List Json → Option (List BlockWithId)
  | [] => some []
  | j :: rest => do
      let b ← BlockWithId.fromJson j
      let bs ← decodeBlockList rest
      pure (b :: bs)

/-- Serde-derived deserialization of HomepageData: requires a "blocks" field
holding an array of BlockWithId objects. -/
def HomepageData.fromJson (j : Json) : Option HomepageData := do
  let bj ← j.getField "blocks"
  match bj with
  | .arr elems => do
      let bs ← decodeBlockList elems
      pure ⟨bs⟩
  | _ => none

/-- Decode a JSON array of strings (serde sequence of String). -/
def decodeStringList : List Json → Option (List String)
  | [] => some []
  | j :: rest =>
    match j with
    | .str s => (decodeStringList rest).map (fun l => s :: l)
    | _ => none

/-- Serde-derived deserialization of Route: `block_ids` is read from the
renamed key "blockIds". -/
def Route.fromJson (j : Json) : Option Route := do
  let path ← (← j.getField "path").asString
  let name ← (← j.getField "name").asString
  let bj ← j.getField "blockIds"
  match bj with
  | .arr elems => do
      let ids ← decodeStringList elems
      pure ⟨path, name, ids⟩
  | _ => none

/-- Decode a JSON array elementwise as Route values. -/
def decodeRouteList : List Json → Option (List Route)
  | [] => some []
  | j :: rest => do
      let r ← Route.fromJson j
      let rs ← decodeRouteList rest
      pure (r :: rs)

/-- Deserialization of `Vec<Route>` from a JSON value: must be an array. -/
def decodeRoutes (j : Json) : Option (List Route) :=
  match j with
  | .arr elems => decodeRouteList elems
  | _ => none

/-- Result of `fs::read_to_string` on one path: the file is absent
(`ErrorKind::NotFound`), unreadable (any other io error), or readable with
the given text contents. -/
inductive FileState where
  | missing
  | ioError
  | text (contents : String)
deriving DecidableEq

/-- The filesystem as seen by the persistence layer: a total map from paths
to file states. -/
abbrev FS := String → FileState

/-- `fs::write`: whole-file replace of one path's contents. -/
def writeFile (fs : FS) (path : String) (contents : String) : FS :=
  fun p => if p = path then FileState.text contents else fs p

/-- Rust `s.trim().is_empty()`: the string has no non-whitespace character.
Used both by `load_routes` (empty routes file check) and by the id
assignment in the admin update endpoint. -/
def isBlank (s : String) : Bool :=
  s.toList.all (fun c => c.isWhitespace)

/-- Translated from core/persistence.rs: `const ROUTES_JSON_PATH`. -/
def ROUTES_JSON_PATH : String := "data/routes.json"

/-- Translated from core/persistence.rs: `fn default_routes`. -/
def default_routes : List Route :=
  [{ path := "/", name := "homepage", block_ids := ["data/content/homepage.json"] }]

/-- Translated from core/persistence.rs: `pub fn load_routes`.  Missing or
unreadable file, whitespace-only contents, or contents that fail to parse as
a `Vec<Route>` all yield `default_routes`; otherwise the parsed routes.
`jp` is the external JSON text parsing facility (serde_json's syntax layer);
shape checking is `decodeRoutes`.  The function reads only: it returns no
updated filesystem, so it can never persist the default. -/
def load_routes (jp : String → Option Json) (fs : FS) : List Route :=
  match fs ROUTES_JSON_PATH with
  | .text contents =>
      if isBlank contents then default_routes
      else
        match jp contents >>= decodeRoutes with
        | some routes => routes
        | none => default_routes
  | .missing => default_routes
  | .ioError => default_routes

/-- The failure conditions of `get_content_path` (the source reports them as
formatted strings; the spec names them RouteNotFound and NoContentPath). -/
inductive PathError where
  | RouteNotFound (route_name : String)
  | NoContentPath (route_name : String)
deriving DecidableEq

/-- Translated from core/persistence.rs: `fn get_content_path` (the spec's
resolve_content_path).  Reloads the routes index, finds the first route with
a matching name, and returns the first entry of its `block_ids`. -/
def get_content_path (jp : String → Option Json) (fs : FS) (route_name : String) :
    Except PathError String :=
  match (load_routes jp fs).find? (fun r => r.name == route_name) with
  | none => Except.error (PathError.RouteNotFound route_name)
  | some route =>
    match route.block_ids with
    | [] => Except.error (PathError.NoContentPath route_name)
    | p :: _ => Except.ok p

/-- Translated from core/persistence.rs: `pub fn load_blocks`.  Every
failure (route lookup, read, parse, shape) is swallowed into an empty list;
a successfully parsed document contributes exactly its `blocks` field. -/
def load_blocks (jp : String → Option Json) (fs : FS) (route_name : String) :
    List BlockWithId :=
  match get_content_path jp fs route_name with
  | .error _ => []
  | .ok path =>
    match fs path with
    | .missing => []
    | .ioError => []
    | .text contents =>
      match jp contents >>= HomepageData.fromJson with
      | some data => data.blocks
      | none => []

/-- Translated from core/persistence.rs: `pub fn save_blocks`.  On a path
resolution failure the error is propagated and the filesystem is returned
unchanged; otherwise the rendered document replaces the content file.
`render` is the external serde_json pretty printer (total on this data). -/
def save_blocks (jp : String → Option Json) (render : Json → String) (fs : FS)
    (route_name : String) (blocks : List BlockWithId) :
    Except PathError Unit × FS :=
  match get_content_path jp fs route_name with
  | .error e => (Except.error e, fs)
  | .ok path => (Except.ok (), writeFile fs path (render (HomepageData.toJson ⟨blocks⟩)))

/-- Translated from pages/homepage.rs: `HomepageData::default_blocks`. -/
def HomepageData.default_blocks : List BlockWithId :=
  [{ id := "550e8400-e29b-41d4-a716-446655440001",
     block := Block.Header
       { headline := "Eng Manager",
         button := { href := "/contact", text := "Get in touch",
                     aria_label := "Contact us to discuss your engineering needs" } } },
   { id := "550e8400-e29b-41d4-a716-446655440002",
     block := Block.Hero
       { headline := "Building world-class engineering teams",
         subheadline := "Leadership through example, expertise, and empathy" } }]

/-- Translated from core/persistence.rs: `pub fn load_homepage_blocks`: the
source instantiation of the spec's load_or_default at route "homepage". -/
def load_homepage_blocks (jp : String → Option Json) (fs : FS) : List BlockWithId :=
  if (load_blocks jp fs "homepage").isEmpty then HomepageData.default_blocks
  else load_blocks jp fs "homepage"

/-- Modelled from the spec: the route-generic `load_or_default(route_name)`
convenience; the source contains only its "homepage" instantiation
(`load_homepage_blocks` in core/persistence.rs), whose body this generalizes
verbatim by abstracting the route name. -/
def load_or_default (jp : String → Option Json) (fs : FS) (route_name : String) :
    List BlockWithId :=
  if (load_blocks jp fs route_name).isEmpty then HomepageData.default_blocks
  else load_blocks jp fs route_name

/-- Translated from core/persistence.rs: `pub fn save_routes`. -/
def save_routes (render : Json → String) (fs : FS) (routes : List Route) : FS :=
  writeFile fs ROUTES_JSON_PATH (render (Json.arr (routes.map Route.toJson)))

/-- Helper for `ensure_block_ids`: maps over the list keeping the index used
to draw a fresh value from the generator stream. -/
def ensureFrom (gen : Nat → String) : Nat → List BlockWithId → List BlockWithId
  | _, [] => []
  | i, b :: rest =>
      (if isBlank b.id then { b with id := gen i } else b) :: ensureFrom gen (i + 1) rest

/-- Translated from pages/admin/api.rs, `update_route`: the id-assignment
map run immediately before `save_blocks`.  A block whose id is empty after
trimming receives a freshly generated id (`Uuid::new_v4()` in the source,
modelled by the generator stream `gen`); every other block passes through
unchanged.  No uniqueness check is performed. -/
def ensure_block_ids (gen : Nat → String) (blocks : List BlockWithId) :
    List BlockWithId :=
  ensureFrom gen 0 blocks

/-! Concrete instantiations used to exercise the theorems on closed inputs. -/

/-- A JSON text layer on which every string fails to parse. -/
def jpNone : String → Option Json := fun _ => none

/-- A JSON text layer that parses the text "[]" to the empty array. -/
def jpEmptyArr : String → Option Json :=
  fun s => if s = "[]" then some (Json.arr []) else none

/-- A filesystem with no files at all. -/
def fsMissing : FS := fun _ => FileState.missing

/-- A filesystem whose only file is a homepage content file with contents
that are not valid JSON. -/
def fsCorruptHomepage : FS :=
  fun p => if p = "data/content/homepage.json" then FileState.text "not json"
           else FileState.missing

/-- A filesystem whose only file is a routes index with contents that are
not valid JSON. -/
def fsBadRoutes : FS :=
  fun p => if p = ROUTES_JSON_PATH then FileState.text "oops" else FileState.missing

/-- A filesystem whose routes index holds the literal text "[]". -/
def fsEmptyRoutes : FS :=
  fun p => if p = ROUTES_JSON_PATH then FileState.text "[]" else FileState.missing

/-- A trivial pretty printer stand-in. -/
def renderStub : Json → String := fun _ => ""

/-- A generator stream producing one fixed fresh id. -/
def genConst : Nat → String := fun _ => "u-1"

/-- Two-element input for the id-assignment step: one blank id, one kept. -/
def blocksW : List BlockWithId :=
  [{ id := "", block := Block.Hero { headline := "h", subheadline := "s" } },
   { id := "keep-me", block := Block.Hero { headline := "h2", subheadline := "s2" } }]

/-- A block whose id is a single space: non-empty, but blank after
trimming. -/
def wsBlock : BlockWithId :=
  { id := " ", block := Block.Hero { headline := "h", subheadline := "s" } }

/-! Helper lemmas shared by the roundtrip development. -/

theorem button_rt (p : ButtonProps) : ButtonProps.fromJson p.toJson = some p := by
  cases p; rfl

theorem header_rt (p : HeaderProps) : HeaderProps.fromJson p.toJson = some p := by
  cases p with
  | mk headline button => cases button; rfl

theorem hero_rt (p : HeroProps) : HeroProps.fromJson p.toJson = some p := by
  cases p; rfl

theorem block_rt (b : Block) : Block.fromJson b.toJson = some b := by
  cases b with
  | Header p =>
    cases p with
    | mk h btn => cases btn; rfl
  | Hero p => cases p; rfl

theorem blockWithId_rt (b : BlockWithId) : BlockWithId.fromJson b.toJson = some b := by
  cases b with
  | mk id bl =>
    cases bl with
    | Header p =>
      cases p with
      | mk h btn => cases btn; rfl
    | Hero p => cases p; rfl

theorem decodeBlockList_rt (bs : List BlockWithId) :
    decodeBlockList (bs.map BlockWithId.toJson) = some bs := by
  induction bs with
  | nil => rfl
  | cons b rest ih => simp [decodeBlockList, blockWithId_rt, ih]

theorem ensureFrom_get (gen : Nat → String) (bs : List BlockWithId) (k i : Nat) :
    (ensureFrom gen k bs).get? i =
      (bs.get? i).map (fun b => if isBlank b.id then { b with id := gen (k + i) } else b) := by
  induction bs generalizing k i with
  | nil => simp [ensureFrom]
  | cons b rest ih =>
    cases i with
    | zero => simp [ensureFrom]
    | succ n =>
      simp only [ensureFrom, List.get?]
      rw [ih]
      have hk : k + 1 + n = k + (n + 1) := by omega
      rw [hk]

theorem ensureFrom_nonempty (gen : Nat → String) (hgen : ∀ j, gen j ≠ "")
    (k : Nat) (bs : List BlockWithId) :
    ∀ b ∈ ensureFrom gen k bs, b.id ≠ "" := by
  induction bs generalizing k with
  | nil => intro b hb; simp [ensureFrom] at hb
  | cons b0 rest ih =>
    intro b hb
    simp only [ensureFrom, List.mem_cons] at hb
    rcases hb with h | h
    · subst h
      by_cases hbl : isBlank b0.id
      · simp [hbl]; exact hgen k
      · simp [hbl]
        intro hid
        apply hbl
        rw [hid]
        decide
    · exact ih (k + 1) b h

/-! The claim theorems. -/

/-- C1: for every route name, every filesystem state and every behaviour of
the external JSON text layer, `load_blocks` totally evaluates to a list (it
cannot raise) and returns the empty list when path resolution fails, when
the content file is missing, when it is unreadable, or when its contents do
not parse and decode as a content document; otherwise it returns exactly the
parsed `blocks` field. -/
theorem load_blocks_total_fallback (jp : String → Option Json) (fs : FS) (rn : String) :
    (∀ e, get_content_path jp fs rn = Except.error e → load_blocks jp fs rn = []) ∧
    (∀ p, get_content_path jp fs rn = Except.ok p → fs p = FileState.missing →
      load_blocks jp fs rn = []) ∧
    (∀ p, get_content_path jp fs rn = Except.ok p → fs p = FileState.ioError →
      load_blocks jp fs rn = []) ∧
    (∀ p c, get_content_path jp fs rn = Except.ok p → fs p = FileState.text c →
      jp c >>= HomepageData.fromJson = none → load_blocks jp fs rn = []) ∧
    (∀ p c d, get_content_path jp fs rn = Except.ok p → fs p = FileState.text c →
      jp c >>= HomepageData.fromJson = some d → load_blocks jp fs rn = d.blocks) := by
  refine ⟨?_, ?_, ?_, ?_, ?_⟩
  · intro e h1; simp only [load_blocks, h1]
  · intro p h1 h2; simp only [load_blocks, h1, h2]
  · intro p h1 h2; simp only [load_blocks, h1, h2]
  · intro p c h1 h2 h3; simp only [load_blocks, h1, h2, h3]
  · intro p c d h1 h2 h3; simp only [load_blocks, h1, h2, h3]

/-- Witness for C1: with a corrupt homepage content file (text "not json",
which the JSON layer rejects), `load_blocks` returns the empty list. -/
theorem load_blocks_total_fallback_witness :
    load_blocks jpNone fsCorruptHomepage "homepage" = [] :=
  (load_blocks_total_fallback jpNone fsCorruptHomepage "homepage").2.2.2.1
    "data/content/homepage.json" "not json" (by rfl) (by rfl) (by rfl)

/-- C2: `get_content_path` fails with RouteNotFound when no route of the
loaded index has a matching name, with NoContentPath when the matching
route's block_ids is empty, and otherwise returns the first entry of
block_ids; and on any such failure `save_blocks` propagates the error and
returns the filesystem unchanged (no file is written). -/
theorem resolve_and_save_error_propagation (jp : String → Option Json) (fs : FS)
    (rn : String) :
    ((load_routes jp fs).find? (fun r => r.name == rn) = none →
      get_content_path jp fs rn = Except.error (PathError.RouteNotFound rn)) ∧
    (∀ r, (load_routes jp fs).find? (fun r => r.name == rn) = some r →
      r.block_ids = [] →
      get_content_path jp fs rn = Except.error (PathError.NoContentPath rn)) ∧
    (∀ r p rest, (load_routes jp fs).find? (fun r => r.name == rn) = some r →
      r.block_ids = p :: rest →
      get_content_path jp fs rn = Except.ok p) ∧
    (∀ e render blocks, get_content_path jp fs rn = Except.error e →
      save_blocks jp render fs rn blocks = (Except.error e, fs)) := by
  refine ⟨?_, ?_, ?_, ?_⟩
  · intro h1; simp only [get_content_path, h1]
  · intro r h1 h2; simp only [get_content_path, h1, h2]
  · intro r p rest h1 h2; simp only [get_content_path, h1, h2]
  · intro e render blocks h1; simp only [save_blocks, h1]

/-- Witness for C2: with no routes file the index defaults to the single
homepage route, so the route "ghost" resolves to RouteNotFound and a save to
it returns that error with the filesystem untouched. -/
theorem resolve_and_save_error_propagation_witness :
    get_content_path jpNone fsMissing "ghost" =
      Except.error (PathError.RouteNotFound "ghost") ∧
    save_blocks jpNone renderStub fsMissing "ghost" [] =
      (Except.error (PathError.RouteNotFound "ghost"), fsMissing) :=
  ⟨(resolve_and_save_error_propagation jpNone fsMissing "ghost").1 (by rfl),
   (resolve_and_save_error_propagation jpNone fsMissing "ghost").2.2.2
     (PathError.RouteNotFound "ghost") renderStub [] (by rfl)⟩

/-- C3: `load_or_default` substitutes `default_blocks` exactly when
`load_blocks` is empty and passes the loaded blocks through unchanged
otherwise; consequently it never returns an empty list (so an emptied
document is indistinguishable from a missing one); and the source's
`load_homepage_blocks` is its instantiation at route "homepage". -/
theorem load_or_default_substitutes_defaults (jp : String → Option Json) (fs : FS)
    (rn : String) :
    (load_blocks jp fs rn = [] →
      load_or_default jp fs rn = HomepageData.default_blocks) ∧
    (load_blocks jp fs rn ≠ [] →
      load_or_default jp fs rn = load_blocks jp fs rn) ∧
    load_or_default jp fs rn ≠ [] ∧
    load_homepage_blocks jp fs = load_or_default jp fs "homepage" := by
  refine ⟨?_, ?_, ?_, rfl⟩
  · intro h; simp [load_or_default, h]
  · intro h; simp [load_or_default, h]
  · by_cases h : load_blocks jp fs rn = []
    · simp [load_or_default, h, HomepageData.default_blocks]
    · simp [load_or_default, h]

/-- Witness for C3: with no files at all, `load_blocks` for "homepage" is
empty and `load_or_default` returns exactly the default blocks. -/
theorem load_or_default_substitutes_defaults_witness :
    load_or_default jpNone fsMissing "homepage" = HomepageData.default_blocks :=
  (load_or_default_substitutes_defaults jpNone fsMissing "homepage").1 (by rfl)

/-- C4: serializing the content document built from any block list and
deserializing it back yields exactly the original document, so the `blocks`
field round-trips field-for-field with order preserved. -/
theorem content_document_roundtrip (blocks : List BlockWithId) :
    HomepageData.fromJson (HomepageData.toJson (HomepageData.mk blocks)) =
      some (HomepageData.mk blocks) ∧
    (HomepageData.fromJson (HomepageData.toJson (HomepageData.mk blocks))).map
      HomepageData.blocks = some blocks := by
  have h : HomepageData.fromJson (HomepageData.toJson (HomepageData.mk blocks)) =
      some (HomepageData.mk blocks) := by
    simp [HomepageData.toJson, HomepageData.fromJson, Json.getField, getKey,
          decodeBlockList_rt]
  exact ⟨h, by rw [h]; rfl⟩

/-- C5: every Block serializes as an object with the discriminant under the
key "type" holding the literal variant name ("Header" or "Hero") and the
payload under "props"; and every BlockWithId serializes as one flat object
with sibling keys id, type, props and no "block" key. -/
theorem block_serialization_shape (bw : BlockWithId) :
    Json.objKeys bw.toJson = ["id", "type", "props"] ∧
    bw.toJson.getField "block" = none ∧
    bw.toJson.getField "id" = some (Json.str bw.id) ∧
    bw.toJson.getField "type" = some (Json.str bw.block.tag) ∧
    bw.toJson.getField "props" = some bw.block.propsJson ∧
    (∀ p, Block.tag (Block.Header p) = "Header") ∧
    (∀ q, Block.tag (Block.Hero q) = "Hero") ∧
    (∀ b : Block, Json.objKeys b.toJson = ["type", "props"]) ∧
    (∀ b : Block, b.toJson.getField "type" = some (Json.str b.tag)) ∧
    (∀ b : Block, b.toJson.getField "props" = some b.propsJson) :=
  ⟨rfl, rfl, rfl, rfl, rfl, fun _ => rfl, fun _ => rfl, fun _ => rfl,
   fun _ => rfl, fun _ => rfl⟩

/-- C6 counterexample: the claim says every block with a non-empty id is
left untouched, but the source replaces any id that is blank after
trimming: a block whose id is a single space has a non-empty id yet is
changed by `ensure_block_ids`. -/
theorem ensure_block_ids_claim_counterexample :
    wsBlock.id ≠ "" ∧ ensure_block_ids (fun _ => "u-2") [wsBlock] ≠ [wsBlock] := by
  decide

/-- C6 (amended): `ensure_block_ids` acts pointwise — the block at each
position depends only on the input block at that position (hence no
uniqueness check against siblings or file content): a block whose id is
empty or whitespace-only receives the freshly generated id for its
position, every block whose trimmed id is non-empty passes through
unchanged; and when the generator yields non-empty ids every output block
has a non-empty id. -/
theorem ensure_block_ids_pointwise (gen : Nat → String) (blocks : List BlockWithId) :
    (∀ i, (ensure_block_ids gen blocks).get? i =
      (blocks.get? i).map
        (fun b => if isBlank b.id then { b with id := gen i } else b)) ∧
    ((∀ j, gen j ≠ "") → ∀ b ∈ ensure_block_ids gen blocks, b.id ≠ "") := by
  constructor
  · intro i
    have h := ensureFrom_get gen blocks 0 i
    simpa [ensure_block_ids] using h
  · intro hgen
    exact ensureFrom_nonempty gen hgen 0 blocks

/-- Witness for C6: on one blank-id block and one block with id "keep-me",
the blank id becomes the generated "u-1", "keep-me" survives unchanged, and
with the non-empty generator every output id is non-empty. -/
theorem ensure_block_ids_pointwise_witness :
    (ensure_block_ids genConst blocksW).get? 0 =
      some { id := "u-1", block := Block.Hero { headline := "h", subheadline := "s" } } ∧
    (ensure_block_ids genConst blocksW).get? 1 =
      some { id := "keep-me",
             block := Block.Hero { headline := "h2", subheadline := "s2" } } ∧
    ({ id := "keep-me",
       block := Block.Hero { headline := "h2", subheadline := "s2" } } : BlockWithId).id
      ≠ "" :=
  ⟨((ensure_block_ids_pointwise genConst blocksW).1 0).trans (by decide),
   ((ensure_block_ids_pointwise genConst blocksW).1 1).trans (by decide),
   (ensure_block_ids_pointwise genConst blocksW).2
     (fun j => by show ("u-1" : String) ≠ ""; decide) _ (by decide)⟩

/-- C7: `load_routes` returns the single default route (path "/", name
"homepage", block_ids containing only the homepage content path) when the
routes file is missing, unreadable, whitespace-only, or fails to parse or
decode as a route list, and returns the parsed routes otherwise; its type
returns no updated filesystem, so it never persists the default. -/
theorem load_routes_fallback (jp : String → Option Json) (fs : FS) :
    default_routes =
      [{ path := "/", name := "homepage",
         block_ids := ["data/content/homepage.json"] }] ∧
    (fs ROUTES_JSON_PATH = FileState.missing → load_routes jp fs = default_routes) ∧
    (fs ROUTES_JSON_PATH = FileState.ioError → load_routes jp fs = default_routes) ∧
    (∀ c, fs ROUTES_JSON_PATH = FileState.text c → isBlank c = true →
      load_routes jp fs = default_routes) ∧
    (∀ c, fs ROUTES_JSON_PATH = FileState.text c → isBlank c = false →
      jp c >>= decodeRoutes = none → load_routes jp fs = default_routes) ∧
    (∀ c routes, fs ROUTES_JSON_PATH = FileState.text c → isBlank c = false →
      jp c >>= decodeRoutes = some routes → load_routes jp fs = routes) := by
  refine ⟨rfl, ?_, ?_, ?_, ?_, ?_⟩
  · intro h1; simp [load_routes, h1]
  · intro h1; simp [load_routes, h1]
  · intro c h1 h2; simp [load_routes, h1, h2]
  · intro c h1 h2 h3; simp [load_routes, h1, h2, h3]
  · intro c routes h1 h2 h3; simp [load_routes, h1, h2, h3]

/-- Witness for C7: a missing routes file and an unparseable routes file
both yield the default route list. -/
theorem load_routes_fallback_witness :
    load_routes jpNone fsMissing = default_routes ∧
    load_routes jpNone fsBadRoutes = default_routes :=
  ⟨(load_routes_fallback jpNone fsMissing).2.1 (by rfl),
   (load_routes_fallback jpNone fsBadRoutes).2.2.2.2.1 "oops" (by rfl) (by decide)
     (by rfl)⟩

/-- C8: `default_blocks` is a fixed two-element list whose first element is
a Header block with headline "Eng Manager" and button href "/contact" and
whose second is a Hero block with headline "Building world-class engineering
teams"; as a pure definition, any two reads are structurally equal. -/
theorem default_blocks_content :
    HomepageData.default_blocks.length = 2 ∧
    (HomepageData.default_blocks.get? 0).map BlockWithId.block =
      some (Block.Header
        { headline := "Eng Manager",
          button := { href := "/contact", text := "Get in touch",
                      aria_label := "Contact us to discuss your engineering needs" } }) ∧
    (HomepageData.default_blocks.get? 1).map BlockWithId.block =
      some (Block.Hero
        { headline := "Building world-class engineering teams",
          subheadline := "Leadership through example, expertise, and empathy" }) :=
  ⟨rfl, rfl, rfl⟩

/-- C9: every Route serializes with exactly the keys path, name and
"blockIds" (never "block_ids"), with the block_ids field under the literal
key "blockIds" and path and name unrenamed. -/
theorem route_serialization_keys (r : Route) :
    Json.objKeys r.toJson = ["path", "name", "blockIds"] ∧
    r.toJson.getField "blockIds" = some (Json.arr (r.block_ids.map Json.str)) ∧
    r.toJson.getField "block_ids" = none ∧
    r.toJson.getField "path" = some (Json.str r.path) ∧
    r.toJson.getField "name" = some (Json.str r.name) :=
  ⟨rfl, rfl, rfl, rfl, rfl⟩

/-- C10: when the routes file holds the valid JSON text "[]", `load_routes`
returns the empty route list (no default substitution), and consequently
`get_content_path` fails with RouteNotFound for every route name. -/
theorem load_routes_empty_array (jp : String → Option Json) (fs : FS) (rn : String)
    (h1 : fs ROUTES_JSON_PATH = FileState.text "[]")
    (h2 : jp "[]" = some (Json.arr [])) :
    load_routes jp fs = [] ∧
    get_content_path jp fs rn = Except.error (PathError.RouteNotFound rn) := by
  have hlr : load_routes jp fs = [] := by
    simp only [load_routes, h1]
    rw [if_neg (by decide)]
    rw [h2]
    rfl
  refine ⟨hlr, ?_⟩
  simp [get_content_path, hlr]

/-- Witness for C10: with a routes file containing the text "[]" even the
route "homepage" resolves to RouteNotFound. -/
theorem load_routes_empty_array_witness :
    load_routes jpEmptyArr fsEmptyRoutes = [] ∧
    get_content_path jpEmptyArr fsEmptyRoutes "homepage" =
      Except.error (PathError.RouteNotFound "homepage") :=
  load_routes_empty_array jpEmptyArr fsEmptyRoutes "homepage" (by rfl) (by rfl)

end Website
